import Mathlib

/-
  Verification development for the authentication subsystem of the
  personal-stylist application (src/src/core/AUTHENTICATION.py and the
  admin-log entry point in src/src/main.py).

  Shallow embedding conventions:
  * the SQLite tables `users`, `user_auth`, `user_sessions` and
    `security_audit_log` are lists of records, in row-insertion order;
  * wall-clock instants are naturals (`now`); SQL `ORDER BY timestamp DESC`
    over the append-only audit log is modelled as list reversal, since in a
    sequential run timestamps are monotone in insertion order;
  * the PBKDF2 derivation `hash_password` is an opaque parameter
    `hashFn : String → String → String` (password, salt ↦ hex digest);
    `verify_password` compares the recomputed digest with the stored one;
  * values produced by `secrets.token_hex` (user ids, salts, session ids)
    are explicit arguments of the operations that generate them;
  * Python's falsy test `if not session_id` is the test for the empty string.
-/

/-- Row of the `users` profile table (columns touched by `create_user`). -/
structure UserProfile where
  id : String
  name : String
  email : String
  location : String
  timezone : String
  preferences : String
deriving DecidableEq, Repr

/-- Row of the `user_auth` table. -/
structure UserAuth where
  user_id : String
  username : String
  email : String
  password_hash : String
  salt : String
  is_admin : Bool
  is_active : Bool
  failed_login_attempts : Nat
  locked_until : Option Nat
  last_login : Option Nat
deriving DecidableEq, Repr

/-- Row of the `user_sessions` table. -/
structure Session where
  session_id : String
  user_id : String
  created_at : Nat
  last_activity : Nat
  expires_at : Nat
  ip_address : Option String
  user_agent : Option String
  is_active : Bool
deriving DecidableEq, Repr

/-- Row of the `security_audit_log` table (timestamp modelled by position). -/
structure AuditEvent where
  user_id : Option String
  action : String
  ip_address : Option String
  user_agent : Option String
  success : Bool
  details : String
deriving DecidableEq, Repr

/-- The whole backing store. -/
structure AuthDB where
  users : List UserProfile
  user_auth : List UserAuth
  user_sessions : List Session
  audit_log : List AuditEvent
deriving DecidableEq, Repr

/-- `self.session_timeout = 24 * 60 * 60` (seconds). -/
def session_timeout : Nat := 24 * 60 * 60

/-- `self.max_login_attempts = 5`. -/
def max_login_attempts : Nat := 5

/-- `self.lockout_duration = 15 * 60` (seconds). -/
def lockout_duration : Nat := 15 * 60

/-- ASCII lowercasing of one character, as Python `str.lower` acts on the
ASCII range (the only range the weak-pattern denylist can match). -/
def asciiLower (c : Char) : Char :=
  if 'A' ≤ c && c ≤ 'Z' then Char.ofNat (c.toNat + 32) else c

/-- `needle` is a prefix of `hay` (character lists). -/
def startsWithList : List Char → List Char → Bool
  | [], _ => true
  | _ :: _, [] => false
  | a :: as, b :: bs => a == b && startsWithList as bs

/-- `needle` occurs contiguously inside `hay`; models `re.search` for a
pattern that is a plain literal string. -/
def substrOf (needle : List Char) : List Char → Bool
  | [] => startsWithList needle []
  | c :: rest => startsWithList needle (c :: rest) || substrOf needle rest

/-- Character class of `^[a-zA-Z0-9_-]+$` in `create_user`. -/
def usernameCharOk (c : Char) : Bool :=
  ('a' ≤ c && c ≤ 'z') || ('A' ≤ c && c ≤ 'Z') || ('0' ≤ c && c ≤ '9')
    || c == '_' || c == '-'

/-- The characters the anchored match `^[a-zA-Z0-9_-]+$` effectively checks:
in Python, `$` matches at the end of the string or just before one newline
at the very end, so a single trailing newline is discounted (the class
itself cannot absorb it). -/
def usernameMatchTarget (username : String) : List Char :=
  if username.toList.getLast? == some '\n' then username.toList.dropLast
  else username.toList

/-- Truth value of `re.match(r'^[a-zA-Z0-9_-]+$', username)`: one or more
class characters spanning the whole string, except that `$` also accepts a
position just before a single final newline. -/
def usernameRegexOk (username : String) : Bool :=
  !(usernameMatchTarget username).isEmpty
    && (usernameMatchTarget username).all usernameCharOk

/-- Character class `[!@#$%^&*(),.?":\x7b\x7d|<>]` of the special-character
check in `validate_password_strength`. -/
def specialChars : List Char :=
  ['!', '@', '#', '$', '%', '^', '&', '*', '(', ')', ',', '.', '?',
   '\x22', ':', '\x7b', '\x7d', '|', '<', '>']

/-- The `weak_patterns` denylist of `validate_password_strength`. -/
def weak_patterns : List String :=
  ["password", "123456", "qwerty", "admin", "login",
   "welcome", "letmein", "monkey", "dragon", "master"]

/-- The email shape check `re.match(r'^[^@]+@[^@]+\.[^@]+$', email)`:
the string splits as `A @ D` with `A` nonempty and free of `@`, `D` free of
`@` and containing a dot that is neither its first nor its last character. -/
def emailOk (email : String) : Bool :=
  let cs := email.toList
  let before := cs.takeWhile (fun c => c != '@')
  match cs.dropWhile (fun c => c != '@') with
  | [] => false
  | _ :: after =>
      !before.isEmpty && !(after.contains '@')
        && (after.tail.dropLast.contains '.')

/-- `verify_password`: recompute the digest and compare with the stored one
(the `hmac.compare_digest` constant-time aspect is not observable here). -/
def verify_password (hashFn : String → String → String)
    (password password_hash salt : String) : Bool :=
  hashFn password salt == password_hash

/-- `validate_password_strength` (lines 102-132): returns the `(ok, message)`
pair of the source. -/
def validate_password_strength (password : String) : Bool × String :=
  let cs := password.toList
  if cs.length < 8 then
    (false, "Password must be at least 8 characters long")
  else if cs.length > 128 then
    (false, "Password must be less than 128 characters")
  else if !(cs.any fun c => 'A' ≤ c && c ≤ 'Z') then
    (false, "Password must contain at least one uppercase letter")
  else if !(cs.any fun c => 'a' ≤ c && c ≤ 'z') then
    (false, "Password must contain at least one lowercase letter")
  else if !(cs.any fun c => '0' ≤ c && c ≤ '9') then
    (false, "Password must contain at least one number")
  else if !(cs.any fun c => specialChars.contains c) then
    (false, "Password must contain at least one special character")
  else
    match weak_patterns.find? (fun w => substrOf w.toList (cs.map asciiLower)) with
    | some w =>
        (false, "Password cannot contain common words like \x27" ++ w ++ "\x27")
    | none => (true, "Password meets security requirements")

/-- The input-validation phase of `create_user` (lines 137-150), before any
database access. -/
def create_user_validation (username email password : String) : Option String :=
  if username.toList.length < 3 then
    some "Username must be at least 3 characters long"
  else if !(usernameRegexOk username) then
    some "Username can only contain letters, numbers, underscore, and dash"
  else if !(emailOk email) then
    some "Please enter a valid email address"
  else
    match validate_password_strength password with
    | (false, msg) => some msg
    | (true, _) => none

/-- The `json.dumps` of the default preferences inserted by `create_user`. -/
def defaultPreferences : String :=
  "\x7b\x22temperature_unit\x22: \x22celsius\x22, \x22measurement_system\x22: \x22metric\x22\x7d"

/-- `log_security_event`: best-effort append to `security_audit_log`. -/
def log_security_event (db : AuthDB) (uid : Option String) (action : String)
    (success : Bool) (details : String) (ip ua : Option String) : AuthDB :=
  { db with audit_log := db.audit_log ++
      [{ user_id := uid, action := action, ip_address := ip, user_agent := ua,
         success := success, details := details }] }

/-- `create_user` (lines 134-205).  `new_user_id` and `new_salt` stand for the
`secrets.token_hex` draws.  An insert that would violate a primary-key
constraint (`users.id`, `user_auth.user_id`) raises, the connection context
manager rolls the transaction back, and the `except` branch reports failure:
neither row persists. -/
def create_user (hashFn : String → String → String) (db : AuthDB)
    (username email password : String) (is_admin : Bool)
    (new_user_id new_salt : String) : (Bool × String) × AuthDB :=
  match create_user_validation username email password with
  | some msg => ((false, msg), db)
  | none =>
    match db.user_auth.find? (fun u => u.username == username || u.email == email) with
    | some existing =>
        if existing.username == username then
          ((false, "Username already exists"), db)
        else
          ((false, "Email already registered"), db)
    | none =>
        if db.users.any (fun p => p.id == new_user_id)
            || db.user_auth.any (fun u => u.user_id == new_user_id) then
          ((false, "Error creating user: UNIQUE constraint failed"), db)
        else
          let profile : UserProfile :=
            { id := new_user_id, name := username, email := email,
              location := "", timezone := "UTC", preferences := defaultPreferences }
          let auth : UserAuth :=
            { user_id := new_user_id, username := username, email := email,
              password_hash := hashFn password new_salt, salt := new_salt,
              is_admin := is_admin, is_active := true,
              failed_login_attempts := 0, locked_until := none, last_login := none }
          let db1 : AuthDB :=
            { db with users := db.users ++ [profile],
                      user_auth := db.user_auth ++ [auth] }
          ((true, "User \x27" ++ username ++ "\x27 created successfully"),
           log_security_event db1 (some new_user_id) "USER_CREATED" true
             ("User \x27" ++ username ++ "\x27 created") none none)

/-- `create_session` (lines 329-354): deactivate every active session of the
user, then insert the fresh one (`created_at`/`last_activity` take the
`CURRENT_TIMESTAMP` default, `expires_at = now + session_timeout`). -/
def create_session (db : AuthDB) (uid : String) (now : Nat)
    (new_session_id : String) (ip ua : Option String) : String × AuthDB :=
  let deactivated := db.user_sessions.map (fun s =>
    if s.user_id == uid && s.is_active then { s with is_active := false } else s)
  let sess : Session :=
    { session_id := new_session_id, user_id := uid, created_at := now,
      last_activity := now, expires_at := now + session_timeout,
      ip_address := ip, user_agent := ua, is_active := true }
  (new_session_id, { db with user_sessions := deactivated ++ [sess] })

/-- The tail of `authenticate_user` past the account-lock check (lines
263-317): password verification, failure bookkeeping with possible lock, or
session issuance on success.  `u` is the `user_auth` row fetched earlier. -/
def authenticate_checked (hashFn : String → String → String) (db : AuthDB)
    (u : UserAuth) (password : String) (now : Nat)
    (new_session_id : String) (ip ua : Option String) :
    (Bool × String × Option String) × AuthDB :=
  if !(verify_password hashFn password u.password_hash u.salt) then
    let fa := u.failed_login_attempts + 1
    let lk : Option Nat :=
      if max_login_attempts ≤ fa then some (now + lockout_duration) else none
    let db1 : AuthDB :=
      { db with user_auth := db.user_auth.map (fun v =>
          if v.user_id == u.user_id then
            { v with failed_login_attempts := fa, locked_until := lk }
          else v) }
    let db2 := log_security_event db1 (some u.user_id) "LOGIN_FAILED" false
      ("Invalid password (attempt " ++ toString fa ++ ")") ip ua
    match lk with
    | some _ =>
        ((false, "Too many failed attempts. Account locked for "
            ++ toString (lockout_duration / 60) ++ " minutes", none), db2)
    | none =>
        ((false, "Invalid password. " ++ toString (max_login_attempts - fa)
            ++ " attempts remaining", none), db2)
  else
    let db1 : AuthDB :=
      { db with user_auth := db.user_auth.map (fun v =>
          if v.user_id == u.user_id then
            { v with failed_login_attempts := 0, locked_until := none,
                     last_login := some now }
          else v) }
    let res := create_session db1 u.user_id now new_session_id ip ua
    let db3 := log_security_event res.snd (some u.user_id) "LOGIN_SUCCESS" true
      "User logged in successfully" ip ua
    ((true, "Login successful", some res.fst), db3)

/-- `authenticate_user` (lines 207-327).  Returns the `(success, message,
session_id)` triple of the source together with the updated store. -/
def authenticate_user (hashFn : String → String → String) (db : AuthDB)
    (username password : String) (now : Nat) (new_session_id : String)
    (ip ua : Option String) : (Bool × String × Option String) × AuthDB :=
  match db.user_auth.find? (fun u => u.username == username || u.email == username) with
  | none =>
      ((false, "Invalid username or password", none),
       log_security_event db none "LOGIN_FAILED" false
         ("User \x27" ++ username ++ "\x27 not found") ip ua)
  | some u =>
      if !u.is_active then
        ((false, "Account is disabled", none),
         log_security_event db (some u.user_id) "LOGIN_FAILED" false
           "Account is disabled" ip ua)
      else
        match u.locked_until with
        | some t =>
            if now < t then
              ((false, "Account locked. Try again in " ++ toString ((t - now) / 60)
                  ++ " minutes", none),
               log_security_event db (some u.user_id) "LOGIN_FAILED" false
                 "Account is locked" ip ua)
            else
              authenticate_checked hashFn db u password now new_session_id ip ua
        | none =>
            authenticate_checked hashFn db u password now new_session_id ip ua

/-- `validate_session` (lines 356-407). -/
def validate_session (db : AuthDB) (session_id : String) (now : Nat) :
    (Bool × Option String) × AuthDB :=
  if session_id == "" then ((false, none), db)
  else
    match db.user_sessions.find? (fun s => s.session_id == session_id && s.is_active) with
    | none => ((false, none), db)
    | some s =>
        match db.user_auth.find? (fun a => a.user_id == s.user_id) with
        | none => ((false, none), db)
        | some a =>
            if !a.is_active then ((false, none), db)
            else if s.expires_at < now then
              ((false, none),
               { db with user_sessions := db.user_sessions.map (fun t =>
                   if t.session_id == session_id then { t with is_active := false }
                   else t) })
            else
              ((true, some s.user_id),
               { db with user_sessions := db.user_sessions.map (fun t =>
                   if t.session_id == session_id then { t with last_activity := now }
                   else t) })

/-- `logout_user` (lines 409-447): the lookup does not filter on
`is_active`, so any existing row (active or not) yields `true`. -/
def logout_user (db : AuthDB) (session_id : String) : Bool × AuthDB :=
  match db.user_sessions.find? (fun s => s.session_id == session_id) with
  | none => (false, db)
  | some s =>
      let db1 : AuthDB :=
        { db with user_sessions := db.user_sessions.map (fun t =>
            if t.session_id == session_id then { t with is_active := false } else t) }
      (true, log_security_event db1 (some s.user_id) "LOGOUT" true
        "User logged out" none none)

/-- `cleanup_expired_sessions` (lines 534-550). -/
def cleanup_expired_sessions (db : AuthDB) (now : Nat) : AuthDB :=
  { db with user_sessions := db.user_sessions.map (fun s =>
      if s.expires_at < now && s.is_active then { s with is_active := false } else s) }

/-- Row shape returned by `get_security_logs`. -/
structure LogRow where
  action : String
  success : Bool
  details : String
  ip_address : Option String
  username : String
deriving DecidableEq, Repr

/-- The `LEFT JOIN user_auth` plus Python `row[5] or 'Unknown'` of
`get_security_logs`. -/
def lookupUsername (db : AuthDB) (uid : Option String) : String :=
  match uid with
  | none => "Unknown"
  | some i =>
      match db.user_auth.find? (fun a => a.user_id == i) with
      | none => "Unknown"
      | some a => if a.username == "" then "Unknown" else a.username

/-- `get_security_logs` (lines 503-532): newest-first, bounded by `limit`,
with NO caller or authorization parameter of any kind. -/
def get_security_logs (db : AuthDB) (limit : Nat) : List LogRow :=
  (db.audit_log.reverse.take limit).map (fun e =>
    { action := e.action, success := e.success, details := e.details,
      ip_address := e.ip_address, username := lookupUsername db e.user_id })

/-- `show_security_logs` from src/src/main.py (lines 266-277): the UI-layer
wrapper that checks `st.session_state.user_info['is_admin']` and only then
calls `get_security_logs(50)`. -/
def show_security_logs (user_is_admin : Bool) (db : AuthDB) : Option (List LogRow) :=
  if !user_is_admin then none else some (get_security_logs db 50)

/-- The active sessions a principal owns. -/
def activeSessionsOf (db : AuthDB) (uid : String) : List Session :=
  db.user_sessions.filter (fun s => s.user_id == uid && s.is_active)

/-- The account is not blocked by the lock check of `authenticate_user`:
either no `locked_until` is stored, or the stored instant has passed. -/
def lockFree (u : UserAuth) (now : Nat) : Prop :=
  u.locked_until = none ∨ ∃ t, u.locked_until = some t ∧ t ≤ now

/-- `find?` over a conditional row update: updating exactly the rows matched
by `p` with an update `f` that preserves `p` commutes with `find? p`. -/
theorem find?_map_upd {α : Type} (p : α → Bool) (f : α → α)
    (hp : ∀ v, p (f v) = p v) (l : List α) :
    (l.map (fun v => if p v then f v else v)).find? p = (l.find? p).map f := by
  induction l with
  | nil => rfl
  | cons a as ih =>
      by_cases h : p a = true
      · rw [List.map_cons, if_pos h, List.find?_cons_of_pos _ (by rw [hp]; exact h),
            List.find?_cons_of_pos _ h, Option.map_some']
      · have h' : p a = false := by simpa using h
        rw [List.map_cons, if_neg (by simp [h']),
            List.find?_cons_of_neg _ (by simp [h']),
            List.find?_cons_of_neg _ (by simp [h']), ih]

/-- `log_security_event` only appends to the audit log. -/
theorem log_security_event_frame (db : AuthDB) (uid : Option String)
    (action : String) (success : Bool) (details : String) (ip ua : Option String) :
    (log_security_event db uid action success details ip ua).users = db.users
    ∧ (log_security_event db uid action success details ip ua).user_auth = db.user_auth
    ∧ (log_security_event db uid action success details ip ua).user_sessions
        = db.user_sessions :=
  ⟨rfl, rfl, rfl⟩

/-- When the found principal is active and its lock is absent or expired,
`authenticate_user` proceeds to the password-verification tail. -/
theorem authenticate_user_reaches_check (hashFn : String → String → String)
    (db : AuthDB) (username password : String) (now : Nat) (nsid : String)
    (ip ua : Option String) (u : UserAuth)
    (hu : db.user_auth.find? (fun v => v.username == username || v.email == username)
            = some u)
    (hact : u.is_active = true) (hlock : lockFree u now) :
    authenticate_user hashFn db username password now nsid ip ua
      = authenticate_checked hashFn db u password now nsid ip ua := by
  unfold authenticate_user
  rw [hu]
  simp only [hact, Bool.not_true, Bool.false_eq_true, if_false]
  rcases hlock with h | ⟨t, ht, hle⟩
  · rw [h]
  · rw [ht]
    have hnl : ¬ now < t := by omega
    simp [hnl]

/-- On a failed verification, the `user_auth` table after
`authenticate_checked` is the original with the found row's counters
updated (increment, and lock exactly at the threshold). -/
theorem authenticate_checked_fail_auth (hashFn : String → String → String)
    (db : AuthDB) (u : UserAuth) (password : String) (now : Nat) (nsid : String)
    (ip ua : Option String)
    (hv : verify_password hashFn password u.password_hash u.salt = false) :
    (authenticate_checked hashFn db u password now nsid ip ua).snd.user_auth
      = db.user_auth.map (fun v =>
          if v.user_id == u.user_id then
            { v with failed_login_attempts := u.failed_login_attempts + 1,
                     locked_until :=
                       if max_login_attempts ≤ u.failed_login_attempts + 1
                       then some (now + lockout_duration) else none }
          else v) := by
  unfold authenticate_checked
  rw [hv]
  simp only [Bool.not_false, if_true]
  split <;> rfl

/-- On a successful verification, the `user_auth` table after
`authenticate_checked` is the original with the found row's counters reset. -/
theorem authenticate_checked_success_auth (hashFn : String → String → String)
    (db : AuthDB) (u : UserAuth) (password : String) (now : Nat) (nsid : String)
    (ip ua : Option String)
    (hv : verify_password hashFn password u.password_hash u.salt = true) :
    (authenticate_checked hashFn db u password now nsid ip ua).snd.user_auth
      = db.user_auth.map (fun v =>
          if v.user_id == u.user_id then
            { v with failed_login_attempts := 0, locked_until := none,
                     last_login := some now }
          else v) := by
  unfold authenticate_checked
  rw [hv]
  rfl

/-- Concrete stand-in for the PBKDF2 derivation in witness runs. -/
def hf0 : String → String → String := fun p s => p ++ "/" ++ s

/-- Witness principal: active, four failures recorded, no lock. -/
def wAlice : UserAuth :=
  { user_id := "u1", username := "alice", email := "a@x.com",
    password_hash := "pw/s", salt := "s", is_admin := false, is_active := true,
    failed_login_attempts := 4, locked_until := none, last_login := none }

/-- Witness store around `wAlice`. -/
def wdb1 : AuthDB := ⟨[], [wAlice], [], []⟩

/-- Witness principal after the fifth failure: locked until instant 1000. -/
def wAliceLocked : UserAuth :=
  { wAlice with failed_login_attempts := 5, locked_until := some 1000 }

/-- Witness store around `wAliceLocked`. -/
def wdb1L : AuthDB := ⟨[], [wAliceLocked], [], []⟩

/-- C1: while `now < locked_until` the login attempt is rejected with the
account-locked result and no session, for every supplied password (hence
even the correct one); and on a failed verification of an unlocked active
principal the stored failure count becomes `failed_login_attempts + 1` and
`locked_until` is set to `now + lockout_duration` exactly when that
incremented count reaches `max_login_attempts`. -/
theorem C1_lockout_enforced (hashFn : String → String → String) (db : AuthDB)
    (ident password : String) (now : Nat) (nsid : String) (ip ua : Option String)
    (u : UserAuth)
    (hu : db.user_auth.find? (fun v => v.username == ident || v.email == ident)
            = some u)
    (hact : u.is_active = true) :
    (∀ t, u.locked_until = some t → now < t →
      (authenticate_user hashFn db ident password now nsid ip ua).fst
        = (false, "Account locked. Try again in " ++ toString ((t - now) / 60)
            ++ " minutes", none))
    ∧ (lockFree u now →
       verify_password hashFn password u.password_hash u.salt = false →
       (authenticate_user hashFn db ident password now nsid ip ua).snd.user_auth.find?
           (fun v => v.user_id == u.user_id)
         = (db.user_auth.find? (fun v => v.user_id == u.user_id)).map (fun w =>
             { w with failed_login_attempts := u.failed_login_attempts + 1,
                      locked_until :=
                        if max_login_attempts ≤ u.failed_login_attempts + 1
                        then some (now + lockout_duration) else none })) := by
  constructor
  · intro t ht hlt
    unfold authenticate_user
    rw [hu]
    simp [hact, ht, hlt]
  · intro hlock hv
    rw [authenticate_user_reaches_check hashFn db ident password now nsid ip ua u
          hu hact hlock]
    rw [authenticate_checked_fail_auth hashFn db u password now nsid ip ua hv]
    exact find?_map_upd (fun v => v.user_id == u.user_id)
      (fun w => { w with failed_login_attempts := u.failed_login_attempts + 1,
                         locked_until :=
                           if max_login_attempts ≤ u.failed_login_attempts + 1
                           then some (now + lockout_duration) else none })
      (fun v => rfl) db.user_auth

/-- Witness for C1: with the correct password at instant 200 the locked
principal is still rejected; and the fifth failure at instant 100 stores
count 5 and a lock until 1000. -/
theorem C1_lockout_enforced_witness :
    (authenticate_user hf0 wdb1L "alice" "pw" 200 "sid" none none).fst
      = (false, "Account locked. Try again in " ++ toString ((1000 - 200) / 60)
          ++ " minutes", none)
    ∧ (authenticate_user hf0 wdb1 "alice" "bad" 100 "sid" none none).snd.user_auth.find?
        (fun v => v.user_id == wAlice.user_id)
      = (wdb1.user_auth.find? (fun v => v.user_id == wAlice.user_id)).map (fun w =>
          { w with failed_login_attempts := wAlice.failed_login_attempts + 1,
                   locked_until :=
                     if max_login_attempts ≤ wAlice.failed_login_attempts + 1
                     then some (100 + lockout_duration) else none }) :=
  ⟨(C1_lockout_enforced hf0 wdb1L "alice" "pw" 200 "sid" none none wAliceLocked
      (by decide) (by decide)).left 1000 (by decide) (by decide),
   (C1_lockout_enforced hf0 wdb1 "alice" "bad" 100 "sid" none none wAlice
      (by decide) (by decide)).right (Or.inl (by decide)) (by decide)⟩

/-- `validate_session` never touches the `users`, `user_auth` or audit
tables. -/
theorem validate_session_auth_frame (db : AuthDB) (sid : String) (now : Nat) :
    (validate_session db sid now).snd.user_auth = db.user_auth
    ∧ (validate_session db sid now).snd.users = db.users := by
  unfold validate_session
  split
  · exact ⟨rfl, rfl⟩
  · split
    · exact ⟨rfl, rfl⟩
    · split
      · exact ⟨rfl, rfl⟩
      · split
        · exact ⟨rfl, rfl⟩
        · split
          · exact ⟨rfl, rfl⟩
          · exact ⟨rfl, rfl⟩

/-- `logout_user` never touches the `user_auth` table. -/
theorem logout_user_auth_frame (db : AuthDB) (sid : String) :
    (logout_user db sid).snd.user_auth = db.user_auth := by
  unfold logout_user
  split
  · rfl
  · rfl

/-- C7: the successful-login path resets the found principal's
`failed_login_attempts` to 0 and clears `locked_until` (also when a stored
lock has merely expired, via `lockFree`); a failed login stores the strictly
positive count `failed_login_attempts + 1` instead; and `validate_session`,
`logout_user`, `cleanup_expired_sessions` and `create_user` leave every
existing `user_auth` row unchanged, so no other operation performs the
reset. -/
theorem C7_reset_only_on_success (hashFn : String → String → String)
    (db : AuthDB) (ident password : String) (now : Nat) (nsid : String)
    (ip ua : Option String) (u : UserAuth)
    (hu : db.user_auth.find? (fun v => v.username == ident || v.email == ident)
            = some u)
    (hact : u.is_active = true) (hlock : lockFree u now) :
    (verify_password hashFn password u.password_hash u.salt = true →
      (authenticate_user hashFn db ident password now nsid ip ua).snd.user_auth.find?
          (fun v => v.user_id == u.user_id)
        = (db.user_auth.find? (fun v => v.user_id == u.user_id)).map (fun w =>
            { w with failed_login_attempts := 0, locked_until := none,
                     last_login := some now }))
    ∧ (verify_password hashFn password u.password_hash u.salt = false →
      (authenticate_user hashFn db ident password now nsid ip ua).snd.user_auth.find?
          (fun v => v.user_id == u.user_id)
        = (db.user_auth.find? (fun v => v.user_id == u.user_id)).map (fun w =>
            { w with failed_login_attempts := u.failed_login_attempts + 1,
                     locked_until :=
                       if max_login_attempts ≤ u.failed_login_attempts + 1
                       then some (now + lockout_duration) else none }))
    ∧ (∀ (db' : AuthDB) (sid : String) (now' : Nat),
        (validate_session db' sid now').snd.user_auth = db'.user_auth)
    ∧ (∀ (db' : AuthDB) (sid : String),
        (logout_user db' sid).snd.user_auth = db'.user_auth)
    ∧ (∀ (db' : AuthDB) (now' : Nat),
        (cleanup_expired_sessions db' now').user_auth = db'.user_auth)
    ∧ (∀ (hashFn' : String → String → String) (db' : AuthDB)
         (un em pw nid ns : String) (adm : Bool),
        ∀ v ∈ db'.user_auth,
          v ∈ (create_user hashFn' db' un em pw adm nid ns).snd.user_auth) := by
  refine ⟨?_, ?_, ?_, ?_, ?_, ?_⟩
  · intro hv
    rw [authenticate_user_reaches_check hashFn db ident password now nsid ip ua u
          hu hact hlock]
    rw [authenticate_checked_success_auth hashFn db u password now nsid ip ua hv]
    exact find?_map_upd (fun v => v.user_id == u.user_id)
      (fun w => { w with failed_login_attempts := 0, locked_until := none,
                         last_login := some now })
      (fun v => rfl) db.user_auth
  · intro hv
    rw [authenticate_user_reaches_check hashFn db ident password now nsid ip ua u
          hu hact hlock]
    rw [authenticate_checked_fail_auth hashFn db u password now nsid ip ua hv]
    exact find?_map_upd (fun v => v.user_id == u.user_id)
      (fun w => { w with failed_login_attempts := u.failed_login_attempts + 1,
                         locked_until :=
                           if max_login_attempts ≤ u.failed_login_attempts + 1
                           then some (now + lockout_duration) else none })
      (fun v => rfl) db.user_auth
  · intro db' sid now'
    exact (validate_session_auth_frame db' sid now').left
  · intro db' sid
    exact logout_user_auth_frame db' sid
  · intro db' now'
    rfl
  · intro hashFn' db' un em pw nid ns adm v hv
    unfold create_user
    split
    · exact hv
    · split
      · split
        · exact hv
        · exact hv
      · split
        · exact hv
        · exact List.mem_append_left _ hv

/-- Witness for C7: a correct-password login at instant 2000, after the lock
until 1000 has expired, resets the stored counter and lock. -/
theorem C7_reset_only_on_success_witness :
    (authenticate_user hf0 wdb1L "alice" "pw" 2000 "sid" none none).snd.user_auth.find?
        (fun v => v.user_id == wAliceLocked.user_id)
      = (wdb1L.user_auth.find? (fun v => v.user_id == wAliceLocked.user_id)).map
          (fun w => { w with failed_login_attempts := 0, locked_until := none,
                             last_login := some 2000 }) :=
  (C7_reset_only_on_success hf0 wdb1L "alice" "pw" 2000 "sid" none none wAliceLocked
      (by decide) (by decide) (Or.inr ⟨1000, by decide, by decide⟩)).left (by decide)

/-- After the deactivation pass of `create_session`, no session of the
principal is still active. -/
theorem filter_deactivated (l : List Session) (uid : String) :
    (l.map (fun s => if s.user_id == uid && s.is_active
                     then { s with is_active := false } else s)).filter
        (fun s => s.user_id == uid && s.is_active) = [] := by
  induction l with
  | nil => rfl
  | cons a as ih =>
      by_cases h : (a.user_id == uid && a.is_active) = true
      · simp only [List.map_cons, if_pos h, List.filter_cons]
        simpa using ih
      · simp only [List.map_cons, if_neg h, List.filter_cons, h]
        simpa [h] using ih

/-- C2: after `create_session` (the tail of every successful login) the
principal owns at most one active session — the deactivation pass precedes
the insert — and validating any earlier session id of that principal now
returns absent. -/
theorem C2_single_active_session (db : AuthDB) (uid : String) (now : Nat)
    (nsid : String) (ip ua : Option String) :
    (activeSessionsOf (create_session db uid now nsid ip ua).snd uid).length ≤ 1
    ∧ (∀ oldSid, oldSid ≠ nsid →
        (∀ s ∈ db.user_sessions, s.session_id = oldSid → s.user_id = uid) →
        (validate_session (create_session db uid now nsid ip ua).snd oldSid now).fst
          = (false, none)) := by
  constructor
  · unfold activeSessionsOf create_session
    simp only [List.filter_append, filter_deactivated]
    simp
  · intro oldSid hne hown
    by_cases hemp : oldSid = ""
    · subst hemp
      rfl
    · have hfind : (create_session db uid now nsid ip ua).snd.user_sessions.find?
          (fun s => s.session_id == oldSid && s.is_active) = none := by
        rw [List.find?_eq_none]
        intro s hs
        unfold create_session at hs
        simp only [List.mem_append, List.mem_map, List.mem_singleton] at hs
        rcases hs with ⟨t, hmem, himg⟩ | hnew
        · by_cases hc : (t.user_id == uid && t.is_active) = true
          · rw [if_pos hc] at himg
            subst himg
            simp
          · rw [if_neg hc] at himg
            subst himg
            by_cases hsid : t.session_id = oldSid
            · have huid : t.user_id = uid := hown t hmem hsid
              have hia : t.is_active = false := by
                cases h : t.is_active
                · rfl
                · exact absurd (by simp [huid, h]) hc
              simp [hia]
            · simp [hsid]
        · subst hnew
          simp [Ne.symm hne]
      unfold validate_session
      rw [if_neg (by simpa using hemp), hfind]

/-- Witness store for C2: one earlier active session `sid1` of principal
`u1`. -/
def wdb2 : AuthDB :=
  ⟨[], [wAlice],
   [{ session_id := "sid1", user_id := "u1", created_at := 0, last_activity := 0,
      expires_at := 86400, ip_address := none, user_agent := none,
      is_active := true }], []⟩

/-- Witness for C2: issuing `sid2` for `u1` leaves at most one active session
and makes `validate_session` of `sid1` return absent. -/
theorem C2_single_active_session_witness :
    (activeSessionsOf (create_session wdb2 "u1" 100 "sid2" none none).snd "u1").length ≤ 1
    ∧ (validate_session (create_session wdb2 "u1" 100 "sid2" none none).snd
        "sid1" 100).fst = (false, none) :=
  ⟨(C2_single_active_session wdb2 "u1" 100 "sid2" none none).left,
   (C2_single_active_session wdb2 "u1" 100 "sid2" none none).right "sid1"
     (by decide) (by decide)⟩

/-- Fresh witness principal with no recorded failures. -/
def wAlice0 : UserAuth := { wAlice with failed_login_attempts := 0 }

/-- Witness store around `wAlice0`. -/
def wdb3 : AuthDB := ⟨[], [wAlice0], [], []⟩

/-- The result triple of `authenticate_checked` on a failed verification. -/
theorem authenticate_checked_fail_fst (hashFn : String → String → String)
    (db : AuthDB) (u : UserAuth) (password : String) (now : Nat) (nsid : String)
    (ip ua : Option String)
    (hv : verify_password hashFn password u.password_hash u.salt = false) :
    (authenticate_checked hashFn db u password now nsid ip ua).fst
      = (if max_login_attempts ≤ u.failed_login_attempts + 1
         then (false, "Too many failed attempts. Account locked for "
             ++ toString (lockout_duration / 60) ++ " minutes", none)
         else (false, "Invalid password. "
             ++ toString (max_login_attempts - (u.failed_login_attempts + 1))
             ++ " attempts remaining", none)) := by
  unfold authenticate_checked
  rw [hv]
  simp only [Bool.not_false, if_true]
  by_cases hm : max_login_attempts ≤ u.failed_login_attempts + 1
  · simp [hm]
  · simp [hm]

/-- No wrong-password message coincides with the unknown-identifier one. -/
theorem invalid_pw_msg_ne (s : String) :
    ("Invalid password. " ++ s ++ " attempts remaining")
      ≠ "Invalid username or password" := by
  intro h
  have h8 : ("Invalid password. " ++ s ++ " attempts remaining").data[8]?
      = "Invalid username or password".data[8]? := by rw [h]
  rw [String.data_append, String.data_append, List.append_assoc,
      List.getElem?_append_left (by decide)] at h8
  exact absurd h8 (by decide)

/-- C3 is false on the code: at one and the same store, an unknown
identifier and a wrong password for the existing active unlocked principal
produce different externally visible failure messages. -/
theorem C3_counterexample :
    (authenticate_user hf0 wdb3 "ghost" "pw" 100 "sid" none none).fst
      = (false, "Invalid username or password", none)
    ∧ (authenticate_user hf0 wdb3 "alice" "bad" 100 "sid" none none).fst
      = (false, "Invalid password. 4 attempts remaining", none)
    ∧ "Invalid username or password" ≠ "Invalid password. 4 attempts remaining" :=
  ⟨by decide, by decide, by decide⟩

/-- C3 amended: both runs fail without a session, but the unknown-identifier
message `Invalid username or password` never coincides with the
wrong-password message (`Invalid password. N attempts remaining`, or the
lockout message when the failure crosses the threshold), so the response
does reveal whether the identifier exists. -/
theorem C3_messages_differ (hashFn : String → String → String) (db : AuthDB)
    (ident1 ident2 password : String) (now : Nat) (nsid : String)
    (ip ua : Option String) (u : UserAuth)
    (h1 : db.user_auth.find? (fun v => v.username == ident1 || v.email == ident1)
            = none)
    (h2 : db.user_auth.find? (fun v => v.username == ident2 || v.email == ident2)
            = some u)
    (hact : u.is_active = true) (hlock : lockFree u now)
    (hv : verify_password hashFn password u.password_hash u.salt = false) :
    (authenticate_user hashFn db ident1 password now nsid ip ua).fst
      = (false, "Invalid username or password", none)
    ∧ (authenticate_user hashFn db ident2 password now nsid ip ua).fst.fst = false
    ∧ (authenticate_user hashFn db ident2 password now nsid ip ua).fst.snd.snd = none
    ∧ (authenticate_user hashFn db ident2 password now nsid ip ua).fst.snd.fst
        ≠ "Invalid username or password" := by
  have hrun1 : (authenticate_user hashFn db ident1 password now nsid ip ua).fst
      = (false, "Invalid username or password", none) := by
    unfold authenticate_user
    rw [h1]
  have hrun2 := authenticate_checked_fail_fst hashFn db u password now nsid ip ua hv
  rw [authenticate_user_reaches_check hashFn db ident2 password now nsid ip ua u
        h2 hact hlock]
  refine ⟨hrun1, ?_, ?_, ?_⟩
  · by_cases hm : max_login_attempts ≤ u.failed_login_attempts + 1
    · rw [hrun2, if_pos hm]
    · rw [hrun2, if_neg hm]
  · by_cases hm : max_login_attempts ≤ u.failed_login_attempts + 1
    · rw [hrun2, if_pos hm]
    · rw [hrun2, if_neg hm]
  · by_cases hm : max_login_attempts ≤ u.failed_login_attempts + 1
    · rw [hrun2, if_pos hm]
      intro h
      exact absurd h (by decide)
    · rw [hrun2, if_neg hm]
      exact invalid_pw_msg_ne (toString (max_login_attempts - (u.failed_login_attempts + 1)))

/-- Witness for C3 amended, at the store `wdb3`. -/
theorem C3_messages_differ_witness :
    (authenticate_user hf0 wdb3 "ghost" "pw" 100 "sid" none none).fst
      = (false, "Invalid username or password", none)
    ∧ (authenticate_user hf0 wdb3 "alice" "bad" 100 "sid" none none).fst.fst = false
    ∧ (authenticate_user hf0 wdb3 "alice" "bad" 100 "sid" none none).fst.snd.snd = none
    ∧ (authenticate_user hf0 wdb3 "alice" "bad" 100 "sid" none none).fst.snd.fst
        ≠ "Invalid username or password" :=
  C3_messages_differ hf0 wdb3 "ghost" "alice" "bad" 100 "sid" none none wAlice0
    (by decide) (by decide) (by decide) (Or.inl (by decide)) (by decide)

/-- When the session row exists, `logout_user` reports `true` and its only
session-table effect is deactivating the rows with that id. -/
theorem logout_user_found (db : AuthDB) (sid : String) (s : Session)
    (hfind : db.user_sessions.find? (fun t => t.session_id == sid) = some s) :
    (logout_user db sid).fst = true
    ∧ (logout_user db sid).snd.user_sessions
        = db.user_sessions.map (fun v =>
            if v.session_id == sid then { v with is_active := false } else v) := by
  unfold logout_user
  rw [hfind]
  exact ⟨rfl, rfl⟩

/-- After the deactivation pass of `logout_user`, every row with the given
id is inactive. -/
theorem deactivated_by_sid (l : List Session) (sid : String) :
    ∀ t ∈ l.map (fun v =>
        if v.session_id == sid then { v with is_active := false } else v),
      t.session_id = sid → t.is_active = false := by
  intro t ht hsid
  rcases List.mem_map.mp ht with ⟨v, hv, himg⟩
  by_cases hc : (v.session_id == sid) = true
  · rw [if_pos hc] at himg
    subst himg
    rfl
  · rw [if_neg hc] at himg
    subst himg
    exact absurd (by simp [hsid]) hc

/-- C4 is false on the code: the session lookup in `logout_user` does not
filter on `is_active`, so the second logout of an existing session also
returns `true`, not `false`. -/
theorem C4_counterexample :
    (logout_user wdb2 "sid1").fst = true
    ∧ (logout_user (logout_user wdb2 "sid1").snd "sid1").fst = true :=
  ⟨by decide, by decide⟩

/-- C4 amended: for a session id naming an existing session row, both the
first and the second `logout_user` call return `true`; neither is an error,
and after each call every row with that id is inactive.  `false` is returned
exactly for ids with no session row at all. -/
theorem C4_logout_repeated (db : AuthDB) (sid : String) (s : Session)
    (hfind : db.user_sessions.find? (fun t => t.session_id == sid) = some s) :
    (logout_user db sid).fst = true
    ∧ (∀ t ∈ (logout_user db sid).snd.user_sessions,
        t.session_id = sid → t.is_active = false)
    ∧ (logout_user (logout_user db sid).snd sid).fst = true
    ∧ (∀ t ∈ (logout_user (logout_user db sid).snd sid).snd.user_sessions,
        t.session_id = sid → t.is_active = false)
    ∧ (∀ (db' : AuthDB) (sid' : String),
        db'.user_sessions.find? (fun t => t.session_id == sid') = none →
        logout_user db' sid' = (false, db')) := by
  obtain ⟨h1, hsess1⟩ := logout_user_found db sid s hfind
  have hfind2 : (logout_user db sid).snd.user_sessions.find?
      (fun t => t.session_id == sid)
        = some { s with is_active := false } := by
    rw [hsess1]
    rw [find?_map_upd (fun v => v.session_id == sid)
          (fun v => { v with is_active := false }) (fun v => rfl) db.user_sessions]
    rw [hfind]
    rfl
  obtain ⟨h2, hsess2⟩ := logout_user_found (logout_user db sid).snd sid
    { s with is_active := false } hfind2
  refine ⟨h1, ?_, h2, ?_, ?_⟩
  · rw [hsess1]
    exact deactivated_by_sid db.user_sessions sid
  · rw [hsess2]
    exact deactivated_by_sid (logout_user db sid).snd.user_sessions sid
  · intro db' sid' hnone
    unfold logout_user
    rw [hnone]

/-- Witness for C4 amended, at the store `wdb2`: both calls return `true`
and an unknown id returns `false` with the store unchanged. -/
theorem C4_logout_repeated_witness :
    (logout_user wdb2 "sid1").fst = true
    ∧ (logout_user (logout_user wdb2 "sid1").snd "sid1").fst = true
    ∧ logout_user wdb2 "nosuch" = (false, wdb2) := by
  have h := C4_logout_repeated wdb2 "sid1"
    { session_id := "sid1", user_id := "u1", created_at := 0, last_activity := 0,
      expires_at := 86400, ip_address := none, user_agent := none,
      is_active := true } (by decide)
  exact ⟨h.1, h.2.2.1, h.2.2.2.2 wdb2 "nosuch" (by decide)⟩

/-- Witness store for C5: one non-admin principal and one audit event. -/
def wdb5 : AuthDB :=
  ⟨[], [wAlice0], [],
   [{ user_id := some "u1", action := "LOGIN_FAILED", ip_address := none,
      user_agent := none, success := false,
      details := "Invalid password (attempt 1)" }]⟩

/-- C5 is false on the code: `get_security_logs` takes no caller and performs
no authorization check, so it returns events even in a store whose only
principal is not an admin (hence no possible admin caller exists). -/
theorem C5_counterexample :
    (wdb5.user_auth.all fun u => !u.is_admin) = true
    ∧ get_security_logs wdb5 100 ≠ [] :=
  ⟨by decide, by decide⟩

/-- C5 amended: the `is_admin` restriction on reading audit events is
enforced by the UI wrapper `show_security_logs` (src/src/main.py), not by
the Authentication Service: the service getter returns `min limit
(number of events)` rows to any caller, while the wrapper yields nothing
for a non-admin user and delegates to the getter (bound 50) for an admin. -/
theorem C5_admin_check_in_ui (db : AuthDB) (limit : Nat) :
    show_security_logs false db = none
    ∧ show_security_logs true db = some (get_security_logs db 50)
    ∧ (get_security_logs db limit).length = min limit db.audit_log.length := by
  refine ⟨rfl, rfl, ?_⟩
  unfold get_security_logs
  rw [List.length_map, List.length_take, List.length_reverse]

/-- Disabled witness principal. -/
def wAliceDisabled : UserAuth := { wAlice0 with is_active := false }

/-- An already-expired but still active session of principal `u1`. -/
def wSessExp : Session :=
  { session_id := "sid1", user_id := "u1", created_at := 0, last_activity := 0,
    expires_at := 10, ip_address := none, user_agent := none, is_active := true }

/-- Witness store for the C6 counterexample: the owning principal is
disabled, the session is active and expired. -/
def wdb6 : AuthDB := ⟨[], [wAliceDisabled], [wSessExp], []⟩

/-- Witness store for the C6 amended claim: same session, active owner. -/
def wdb6b : AuthDB := ⟨[], [wAlice0], [wSessExp], []⟩

/-- C6 is false on the code: for an expired active session whose owning
principal is disabled, `validate_session` returns absent via the
principal-inactive branch before reaching the expiry branch, so the
session's `is_active` stays `true`. -/
theorem C6_counterexample :
    (validate_session wdb6 "sid1" 20).fst = (false, none)
    ∧ ((validate_session wdb6 "sid1" 20).snd.user_sessions.find?
          (fun t => t.session_id == "sid1")).map Session.is_active = some true :=
  ⟨by decide, by decide⟩

/-- C6 amended: validating a nonempty session id whose stored active row is
expired returns absent; and when the owning principal exists and is active,
the rows with that id are additionally marked inactive as a side effect of
the read (for a disabled principal the row is left untouched). -/
theorem C6_expired_session_validate (db : AuthDB) (sid : String) (now : Nat)
    (s : Session) (hsid : sid ≠ "")
    (hfind : db.user_sessions.find? (fun t => t.session_id == sid && t.is_active)
               = some s)
    (hexp : s.expires_at < now) :
    (validate_session db sid now).fst = (false, none)
    ∧ (∀ a, db.user_auth.find? (fun v => v.user_id == s.user_id) = some a →
        a.is_active = true →
        ∀ t ∈ (validate_session db sid now).snd.user_sessions,
          t.session_id = sid → t.is_active = false) := by
  constructor
  · cases hauth : db.user_auth.find? (fun v => v.user_id == s.user_id) with
    | none =>
        unfold validate_session
        rw [if_neg (by simpa using hsid)]
        simp only [hfind, hauth]
    | some a =>
        cases hactv : a.is_active with
        | true =>
            unfold validate_session
            rw [if_neg (by simpa using hsid)]
            simp only [hfind, hauth, hactv, Bool.not_true, Bool.false_eq_true,
              if_false]
            rw [if_pos hexp]
        | false =>
            unfold validate_session
            rw [if_neg (by simpa using hsid)]
            simp only [hfind, hauth, hactv, Bool.not_false, if_true]
  · intro a hauth hactv
    unfold validate_session
    rw [if_neg (by simpa using hsid)]
    simp only [hfind, hauth, hactv, Bool.not_true, Bool.false_eq_true, if_false]
    rw [if_pos hexp]
    exact deactivated_by_sid db.user_sessions sid

/-- Witness for C6 amended, at the store `wdb6b`: the expired session of the
active principal is absent and left inactive. -/
theorem C6_expired_session_validate_witness :
    (validate_session wdb6b "sid1" 20).fst = (false, none)
    ∧ ((validate_session wdb6b "sid1" 20).snd.user_sessions.find?
          (fun t => t.session_id == "sid1")).map Session.is_active = some false := by
  have h := C6_expired_session_validate wdb6b "sid1" 20 wSessExp (by decide)
    (by decide) (by decide)
  refine ⟨h.1, ?_⟩
  have h2 := h.2 wAlice0 (by decide) (by decide)
  cases hf : (validate_session wdb6b "sid1" 20).snd.user_sessions.find?
      (fun t => t.session_id == "sid1") with
  | none => exact absurd hf (by decide)
  | some t =>
      have hmem := List.mem_of_find?_eq_some hf
      have hsid : t.session_id = "sid1" := by
        have := List.find?_some hf
        simpa using this
      simp [h2 t hmem hsid]

/-- C8: `validate_session` never changes any session's `expires_at` (no
sliding-window extension), and on a successful validation the only change
to the session table is refreshing `last_activity` of the rows with the
validated id. -/
theorem C8_no_expiry_extension (db : AuthDB) (sid : String) (now : Nat) :
    (validate_session db sid now).snd.user_sessions.map Session.expires_at
      = db.user_sessions.map Session.expires_at
    ∧ ((validate_session db sid now).fst.fst = true →
        (validate_session db sid now).snd.user_sessions
          = db.user_sessions.map (fun t =>
              if t.session_id == sid then { t with last_activity := now } else t)) := by
  constructor
  · unfold validate_session
    split
    · rfl
    · split
      · rfl
      · split
        · rfl
        · split
          · rfl
          · split
            · dsimp only
              rw [List.map_map]
              apply List.map_congr_left
              intro t _
              simp only [Function.comp_apply]
              by_cases h : (t.session_id == sid) = true
              · rw [if_pos h]
              · rw [if_neg h]
            · dsimp only
              rw [List.map_map]
              apply List.map_congr_left
              intro t _
              simp only [Function.comp_apply]
              by_cases h : (t.session_id == sid) = true
              · rw [if_pos h]
              · rw [if_neg h]
  · unfold validate_session
    split
    · intro h
      exact Bool.noConfusion h
    · split
      · intro h
        exact Bool.noConfusion h
      · split
        · intro h
          exact Bool.noConfusion h
        · split
          · intro h
            exact Bool.noConfusion h
          · split
            · intro h
              exact Bool.noConfusion h
            · intro _
              rfl

/-- Witness for C8: a successful validation of `sid1` at instant 100 keeps
`expires_at` and only refreshes `last_activity`. -/
theorem C8_no_expiry_extension_witness :
    (validate_session wdb2 "sid1" 100).snd.user_sessions.map Session.expires_at
      = wdb2.user_sessions.map Session.expires_at
    ∧ (validate_session wdb2 "sid1" 100).snd.user_sessions
      = wdb2.user_sessions.map (fun t =>
          if t.session_id == "sid1" then { t with last_activity := 100 } else t) :=
  ⟨(C8_no_expiry_extension wdb2 "sid1" 100).left,
   (C8_no_expiry_extension wdb2 "sid1" 100).right (by decide)⟩

/-- Boolean bridge between an if-chain guard and a spec-side disjunct. -/
theorem any_not_eq_not_all (l : List Char) (p : Char → Bool) :
    l.any (fun c => !p c) = !l.all p := by
  induction l with
  | nil => rfl
  | cons a as ih => simp [List.any_cons, List.all_cons, ih, Bool.not_and]

/-- Spec-side restatement (for C9) of the password rules, in the claim's
words: shorter than 8 or longer than 128 characters, lacking an uppercase
letter, a lowercase letter, a digit or a special character, or containing a
denylisted weak substring compared case-insensitively. -/
def passwordViolationSpec (password : String) : Bool :=
  decide (password.toList.length < 8)
  || decide (password.toList.length > 128)
  || !(password.toList.any fun c => 'A' ≤ c && c ≤ 'Z')
  || !(password.toList.any fun c => 'a' ≤ c && c ≤ 'z')
  || !(password.toList.any fun c => '0' ≤ c && c ≤ '9')
  || !(password.toList.any fun c => specialChars.contains c)
  || weak_patterns.any (fun w => substrOf w.toList (password.toList.map asciiLower))

/-- Spec-side restatement (for C9, as amended) of all registration input
rules: username shorter than 3 characters, or — after discounting the single
trailing newline that Python's `$` anchor accepts — empty or containing a
character outside `[A-Za-z0-9_-]`; email failing the structural check; or
the password rules above. -/
def registerValidationViolation (username email password : String) : Bool :=
  decide (username.toList.length < 3)
  || ((usernameMatchTarget username).isEmpty
      || (usernameMatchTarget username).any (fun c => !usernameCharOk c))
  || !emailOk email
  || passwordViolationSpec password

/-- The amended username rule is the negation of the source's regex truth
value. -/
theorem usernameRegex_spec (username : String) :
    ((usernameMatchTarget username).isEmpty
      || (usernameMatchTarget username).any (fun c => !usernameCharOk c))
      = !usernameRegexOk username := by
  unfold usernameRegexOk
  cases he : (usernameMatchTarget username).isEmpty with
  | true => simp only [he, Bool.true_or, Bool.not_true, Bool.false_and, Bool.not_false]
  | false =>
      simp only [he, Bool.false_or, Bool.not_false, Bool.true_and]
      exact any_not_eq_not_all (usernameMatchTarget username) usernameCharOk

/-- The verdict of `validate_password_strength` is the negation of the
spec-side password-violation predicate. -/
theorem vps_fst (password : String) :
    (validate_password_strength password).fst = !passwordViolationSpec password := by
  unfold validate_password_strength passwordViolationSpec
  dsimp only
  by_cases h1 : password.toList.length < 8
  · rw [if_pos h1, decide_eq_true h1]
    simp only [Bool.true_or, Bool.not_true]
  · rw [if_neg h1, decide_eq_false h1]
    simp only [Bool.false_or]
    by_cases h2 : password.toList.length > 128
    · rw [if_pos h2, decide_eq_true h2]
      simp only [Bool.true_or, Bool.not_true]
    · rw [if_neg h2, decide_eq_false h2]
      simp only [Bool.false_or]
      cases h3 : password.toList.any (fun c => 'A' ≤ c && c ≤ 'Z') with
      | false => simp only [h3, Bool.not_false, if_true, Bool.true_or, Bool.not_true]
      | true =>
          simp only [h3, Bool.not_true, Bool.false_eq_true, if_false, Bool.false_or]
          cases h4 : password.toList.any (fun c => 'a' ≤ c && c ≤ 'z') with
          | false => simp only [h4, Bool.not_false, if_true, Bool.true_or, Bool.not_true]
          | true =>
              simp only [h4, Bool.not_true, Bool.false_eq_true, if_false, Bool.false_or]
              cases h5 : password.toList.any (fun c => '0' ≤ c && c ≤ '9') with
              | false => simp only [h5, Bool.not_false, if_true, Bool.true_or, Bool.not_true]
              | true =>
                  simp only [h5, Bool.not_true, Bool.false_eq_true, if_false, Bool.false_or]
                  cases h6 : password.toList.any (fun c => specialChars.contains c) with
                  | false => simp only [h6, Bool.not_false, if_true, Bool.true_or, Bool.not_true]
                  | true =>
                      simp only [h6, Bool.not_true, Bool.false_eq_true, if_false,
                        Bool.false_or]
                      cases hw : weak_patterns.find?
                          (fun w => substrOf w.toList (password.toList.map asciiLower)) with
                      | none =>
                          have hany : weak_patterns.any
                              (fun w => substrOf w.toList (password.toList.map asciiLower))
                                = false := by
                            rw [List.any_eq_false]
                            intro w hwmem
                            have := List.find?_eq_none.mp hw w hwmem
                            simpa using this
                          rw [hany]
                          rfl
                      | some w =>
                          have hpw : substrOf w.toList (password.toList.map asciiLower)
                              = true := by
                            have := List.find?_some hw
                            simpa using this
                          have hany : weak_patterns.any
                              (fun w => substrOf w.toList (password.toList.map asciiLower))
                                = true :=
                            List.any_eq_true.mpr
                              ⟨w, List.mem_of_find?_eq_some hw, hpw⟩
                          rw [hany]
                          rfl

/-- The validation phase fails exactly on a spec-side violation. -/
theorem create_user_validation_isSome (username email password : String) :
    (create_user_validation username email password).isSome
      = registerValidationViolation username email password := by
  unfold create_user_validation registerValidationViolation
  by_cases h1 : username.toList.length < 3
  · rw [if_pos h1, decide_eq_true h1]
    simp only [Bool.true_or, Option.isSome_some]
  · rw [if_neg h1, decide_eq_false h1]
    simp only [Bool.false_or, usernameRegex_spec username]
    cases hre : usernameRegexOk username with
    | false => simp only [hre, Bool.not_false, if_true, Bool.true_or, Option.isSome_some]
    | true =>
        simp only [hre, Bool.not_true, Bool.false_eq_true, if_false, Bool.false_or]
        cases hem : emailOk email with
        | false => simp only [hem, Bool.not_false, if_true, Bool.true_or, Option.isSome_some]
        | true =>
            simp only [hem, Bool.not_true, Bool.false_eq_true, if_false, Bool.false_or]
            have hv := vps_fst password
            cases hvp : validate_password_strength password with
            | mk b msg =>
                rw [hvp] at hv
                cases b with
                | false =>
                    have hspec : passwordViolationSpec password = true := by
                      simpa using hv.symm
                    rw [hspec]
                    rfl
                | true =>
                    have hspec : passwordViolationSpec password = false := by
                      simpa using hv.symm
                    rw [hspec]
                    rfl

/-- C9 is false on the code as frozen: Python's `$` in
`re.match(r'^[a-zA-Z0-9_-]+$', username)` also matches just before a single
final newline, so the username `ab` followed by a newline — three characters,
one of them outside `[A-Za-z0-9_-]` — passes validation and the account is
created, with no validation failure. -/
theorem C9_counterexample :
    ("ab\n".toList.any fun c => !usernameCharOk c) = true
    ∧ create_user_validation "ab\n" "b@x.com" "Str0ng!Pass" = none
    ∧ (create_user hf0 wdb3 "ab\n" "b@x.com" "Str0ng!Pass" false "u2" "s2").fst.fst
        = true :=
  ⟨by decide, by decide, by decide⟩

/-- C9 amended: `create_user` returns a validation failure — before touching
the store, so no account is created — exactly when the inputs violate the
stated rules, where the username charset rule reads as Python evaluates the
anchored match: after discounting a single trailing newline (accepted by
`$`), the username is empty or contains a character outside
`[A-Za-z0-9_-]`. -/
theorem C9_register_validation (hashFn : String → String → String) (db : AuthDB)
    (username email password nid ns : String) (adm : Bool) :
    (create_user_validation username email password).isSome
      = registerValidationViolation username email password
    ∧ (∀ msg, create_user_validation username email password = some msg →
        create_user hashFn db username email password adm nid ns
          = ((false, msg), db)) := by
  constructor
  · exact create_user_validation_isSome username email password
  · intro msg h
    unfold create_user
    rw [h]

/-- Witness for C9: the too-short username `ab` is rejected with the exact
source message and the store is unchanged. -/
theorem C9_register_validation_witness :
    (create_user_validation "ab" "a@x.com" "Str0ng!Pass").isSome
      = registerValidationViolation "ab" "a@x.com" "Str0ng!Pass"
    ∧ create_user hf0 wdb3 "ab" "a@x.com" "Str0ng!Pass" false "u9" "s9"
        = ((false, "Username must be at least 3 characters long"), wdb3) :=
  ⟨(C9_register_validation hf0 wdb3 "ab" "a@x.com" "Str0ng!Pass" "u9" "s9" false).left,
   (C9_register_validation hf0 wdb3 "ab" "a@x.com" "Str0ng!Pass" "u9" "s9" false).right
     "Username must be at least 3 characters long" (by decide)⟩

/-- C10: whenever `create_user` reports failure — validation, conflict, or a
constraint violation rolled back by the transaction — the store is exactly
the original: neither the `users` row nor the `user_auth` row persists; and
on success both rows are appended in one step, the profile row carrying
empty location, `UTC` timezone and the default preferences. -/
theorem C10_register_atomic (hashFn : String → String → String) (db : AuthDB)
    (username email password nid ns : String) (adm : Bool) :
    ((create_user hashFn db username email password adm nid ns).fst.fst = false →
      (create_user hashFn db username email password adm nid ns).snd = db)
    ∧ ((create_user hashFn db username email password adm nid ns).fst.fst = true →
      (create_user hashFn db username email password adm nid ns).snd.users
        = db.users ++ [{ id := nid, name := username, email := email,
                         location := "", timezone := "UTC",
                         preferences := defaultPreferences }]
      ∧ (create_user hashFn db username email password adm nid ns).snd.user_auth
        = db.user_auth ++ [{ user_id := nid, username := username, email := email,
                             password_hash := hashFn password ns, salt := ns,
                             is_admin := adm, is_active := true,
                             failed_login_attempts := 0, locked_until := none,
                             last_login := none }]) := by
  constructor
  · unfold create_user
    split
    · intro _
      rfl
    · split
      · split
        · intro _
          rfl
        · intro _
          rfl
      · split
        · intro _
          rfl
        · intro h
          exact Bool.noConfusion h
  · unfold create_user
    split
    · intro h
      exact Bool.noConfusion h
    · split
      · split
        · intro h
          exact Bool.noConfusion h
        · intro h
          exact Bool.noConfusion h
      · split
        · intro h
          exact Bool.noConfusion h
        · intro _
          exact ⟨rfl, rfl⟩

/-- Witness for C10: registering with `wAlice0`'s email fails and leaves the
store untouched; registering with a fresh email appends the profile row with
the default location, timezone and preferences. -/
theorem C10_register_atomic_witness :
    (create_user hf0 wdb3 "bob" "a@x.com" "Str0ng!Pass" false "u2" "s2").snd = wdb3
    ∧ (create_user hf0 wdb3 "bob" "b@x.com" "Str0ng!Pass" false "u2" "s2").snd.users
        = wdb3.users ++ [{ id := "u2", name := "bob", email := "b@x.com",
                           location := "", timezone := "UTC",
                           preferences := defaultPreferences }] :=
  ⟨(C10_register_atomic hf0 wdb3 "bob" "a@x.com" "Str0ng!Pass" "u2" "s2" false).left
     (by decide),
   ((C10_register_atomic hf0 wdb3 "bob" "b@x.com" "Str0ng!Pass" "u2" "s2" false).right
     (by decide)).left⟩
